import Mathlib

/-
Verification of the Dependify 2.0 client against its specification.

The repository's visible source consists of the login page, the GitHub OAuth
callback page (frontend/src/app/auth/callback/page.tsx) and the diff viewer
component MultiFileCodeCard.  The Job State Machine reducer (spec sections
4.3 and 4.4) and the Session Store contract (spec section 4.1) are described by
the specification but their implementation is not among the provided source
files; those parts are modelled from the spec, as marked on each definition.
-/

/-! ## Job State Machine (spec sections 4.3, 4.4) -/

/-- The finite status enumeration of a Job.  The canonical success sequence is
queued, analyzing, refactoring, validating, committing, opened, with a parallel
terminal failed state. -/
inductive JobStatus where
  | queued
  | analyzing
  | refactoring
  | validating
  | committing
  | opened
  | failed
deriving DecidableEq, Repr

/-- Position of a status in the forward-only ordering table.  The six canonical
statuses occupy ranks 0 through 5 in canonical order; the parallel terminal
failed state is given the top rank so that the sticky-failure rule is also
rank-monotone. -/
def JobStatus.rank : JobStatus → Nat
  | .queued => 0
  | .analyzing => 1
  | .refactoring => 2
  | .validating => 3
  | .committing => 4
  | .opened => 5
  | .failed => 6

/-- Terminal statuses accept no further transitions (spec glossary). -/
def JobStatus.isTerminal : JobStatus → Bool
  | .opened => true
  | .failed => true
  | _ => false

/-- One file's before/after result (spec section 3, FileResult). -/
structure FileResult where
  fileName : String
  beforeContent : String
  afterContent : String
  description : String
  keyChanges : List String
  confidenceScore : Option Nat
deriving DecidableEq, Repr

/-- Client-side Job snapshot (spec section 3, Job). -/
structure Job where
  jobId : String
  repositoryReference : String
  status : JobStatus
  files : List FileResult
deriving DecidableEq, Repr

/-- A progress-feed event (spec section 3, ProgressEvent): jobId, eventType and
a payload carrying the target status and the file results produced so far. -/
structure ProgressEvent where
  jobId : String
  eventType : String
  target : JobStatus
  payload : List FileResult
deriving DecidableEq, Repr

/-- Modelled from the spec: the reducer that folds a ProgressEvent into the Job
state (sections 4.3 and 4.4) is not among the provided source files.  Per the
spec: a terminal status (opened or failed) accepts no further transitions,
failed is reachable from any non-terminal state, and an event whose target
status is earlier in the canonical sequence than the current status is ignored
(forward-only tie-break policy). -/
def applyEvent (job : Job) (e : ProgressEvent) : Job :=
  if job.status.isTerminal then job
  else if e.target = .failed then { job with status := .failed }
  else if job.status.rank ≤ e.target.rank then
    { job with status := e.target, files := e.payload }
  else job

/-! ## Session Store (spec sections 3, 4.1) -/

/-- Session record (spec section 3): user identifier, credential, issue time
in milliseconds since the epoch. -/
structure Session where
  userIdentifier : String
  accessToken : String
  issuedAt : Nat
deriving DecidableEq, Repr

/-- The fixed validity window: 7 days, in milliseconds. -/
def sessionValidityWindowMs : Nat := 7 * 24 * 60 * 60 * 1000

/-- Modelled from the spec: the Session Store's validity check (section 4.1) is
not among the provided source files.  A token is considered invalid once
(now minus issuedAt) exceeds the fixed 7-day validity window. -/
def Session.isValid (s : Session) (now : Nat) : Bool :=
  now - s.issuedAt ≤ sessionValidityWindowMs

/-! ## OAuth callback (frontend/src/app/auth/callback/page.tsx) -/

/-- The page's status state: "loading" | "success" | "error". -/
inductive CallbackStatus where
  | loading
  | success
  | error
deriving DecidableEq, Repr

/-- The body the backend returns from POST /auth/github on success.  The page
stores data.access_token directly and data.user JSON-serialised; the user field
here holds that serialised form. -/
structure TokenResponse where
  access_token : String
  user : String
deriving DecidableEq, Repr

/-- JavaScript truthiness of a nullable string, as tested by the page's
`if (error)` and `if (!code)`: null and the empty string are falsy. -/
def jsTruthy : Option String → Bool
  | none => false
  | some s => !(s == "")

/-- Everything handleCallback does that is observable: the status state it
sets, the error message, the scheduled router.push target and its setTimeout
delay in milliseconds, the localStorage writes in order, and whether the
fetch to the token-exchange endpoint was issued. -/
structure CallbackOutcome where
  status : CallbackStatus
  errorMessage : String
  redirectPath : String
  redirectDelayMs : Nat
  writes : List (String × String)
  exchangeAttempted : Bool
deriving DecidableEq, Repr

/-- Embedding of AuthCallback.handleCallback.  The query parameters code and
error are read as nullable strings; the token exchange is abstracted as a
function from the code to an optional TokenResponse, where none covers both a
non-ok response and a thrown error (both land in the catch branch). -/
def handleCallback (code error : Option String)
    (exchange : String → Option TokenResponse) : CallbackOutcome :=
  if jsTruthy error then
    { status := .error
      errorMessage := "Authentication was cancelled or failed"
      redirectPath := "/login", redirectDelayMs := 3000
      writes := [], exchangeAttempted := false }
  else if !(jsTruthy code) then
    { status := .error
      errorMessage := "No authorization code received"
      redirectPath := "/login", redirectDelayMs := 3000
      writes := [], exchangeAttempted := false }
  else
    match exchange (code.getD "") with
    | some data =>
        { status := .success
          errorMessage := ""
          redirectPath := "/", redirectDelayMs := 1500
          writes := [("auth_token", data.access_token), ("user", data.user)]
          exchangeAttempted := true }
    | none =>
        { status := .error
          errorMessage := "Failed to complete authentication"
          redirectPath := "/login", redirectDelayMs := 3000
          writes := [], exchangeAttempted := true }

/-! ## Diff presentation (MultiFileCodeCard) -/

/-- The CodeFile interface of MultiFileCodeCard. -/
structure CodeFile where
  name : String
  content : String
  description : String
  confidence_score : Option Nat
  key_changes : Option (List String)
deriving DecidableEq, Repr

/-- The Comparison interface: one file's old/new pair. -/
structure Comparison where
  old : CodeFile
  new : CodeFile
deriving DecidableEq, Repr

/-- Embedding of the component's totalLines useMemo: a left fold over the
files accumulating the length of new.content split on the newline character.
Splitting the character list on the one-character separator agrees with
JavaScript's content.split("\n"); in particular splitting the empty string
yields one element. -/
def totalLines (files : List Comparison) : Nat :=
  files.foldl (fun acc file => acc + (file.new.content.data.splitOn '\n').length) 0

/-- The tab labels the component renders: file?.old?.name, falling back to
"file-" ++ index when the name is falsy (the empty string). -/
def tabLabels (files : List Comparison) : List String :=
  files.enum.map (fun p => if p.2.old.name == "" then "file-" ++ toString p.1 else p.2.old.name)

/-- The component's state relevant to file selection: the files prop and the
activeFile useState value. -/
structure CardState where
  files : List Comparison
  activeFile : String
deriving DecidableEq, Repr

/-- Initial state: activeFile starts as files[0]?.old?.name || "". -/
def initCardState (files : List Comparison) : CardState :=
  { files := files
    activeFile := ((files.head?.map (fun f => f.old.name)).getD "") }

/-- Embedding of the tab click handler, the component's only selection
operation: setActiveFile(fileName) stores the given name unconditionally. -/
def selectFile (s : CardState) (name : String) : CardState :=
  { s with activeFile := name }

/-- The file pair whose panel the component renders: the first pair whose
old name equals activeFile (the render maps over files and keeps the entry
with fileName === activeFile). -/
def displayedFile (s : CardState) : Option Comparison :=
  s.files.find? (fun f => f.old.name == s.activeFile)

/-- What the component returns, reduced to its data content: either the
"No files to display" placeholder (rendered when the files prop is missing,
not an array, or empty) or the full card with its tab labels, the
files-changed count, the lines-written total and the pull-request link of
the call-to-action button. -/
inductive RenderedView where
  | noFilesPlaceholder
  | card (tabs : List String) (filesChanged : Nat) (linesWritten : Nat) (prLink : String)
deriving DecidableEq, Repr

/-- Embedding of MultiFileCodeCard's render output as data. -/
def renderCard (files : List Comparison) (link : String) : RenderedView :=
  if files.isEmpty then .noFilesPlaceholder
  else .card (tabLabels files) files.length (totalLines files) link

/-! ## Helper lemmas -/

theorem JobStatus.rank_le_six (s : JobStatus) : s.rank ≤ 6 := by
  cases s <;> simp [JobStatus.rank]

theorem applyEvent_rank_le (j : Job) (e : ProgressEvent) :
    j.status.rank ≤ (applyEvent j e).status.rank := by
  unfold applyEvent
  split
  · exact le_refl _
  · split
    · exact JobStatus.rank_le_six j.status
    · split
      · next h3 => exact h3
      · exact le_refl _

theorem foldl_applyEvent_rank_le (j : Job) (l : List ProgressEvent) :
    j.status.rank ≤ (l.foldl applyEvent j).status.rank := by
  induction l generalizing j with
  | nil => exact le_refl _
  | cons e t ih => exact le_trans (applyEvent_rank_le j e) (ih (applyEvent j e))

/-! ## Claims about the Job State Machine -/

/-- C1: folding any sequence of ProgressEvents into the Job State Machine, in
whatever delivery order, never moves the status earlier in the canonical
sequence than a status already observed (the rank after consuming a prefix is a
lower bound for the rank after consuming any extension), and the reducer
ignores any event whose target status is earlier in the canonical sequence than
the current status. -/
theorem jobStatus_monotone :
    (∀ (j : Job) (l1 l2 : List ProgressEvent),
        ((l1.foldl applyEvent j).status).rank ≤
          (((l1 ++ l2).foldl applyEvent j).status).rank) ∧
    (∀ (j : Job) (e : ProgressEvent),
        e.target.rank < j.status.rank → applyEvent j e = j) := by
  constructor
  · intro j l1 l2
    rw [List.foldl_append]
    exact foldl_applyEvent_rank_le _ l2
  · intro j e h
    unfold applyEvent
    split
    · rfl
    · split
      · next hf =>
        have h6 := JobStatus.rank_le_six j.status
        rw [hf] at h
        have h7 : (6 : Nat) < j.status.rank := h
        omega
      · split
        · next hle => exact absurd (lt_of_lt_of_le h hle) (lt_irrefl _)
        · rfl

/-- Witness for C1: a redelivered analyzing event arriving while the job is
already refactoring is ignored. -/
theorem jobStatus_monotone_w :
    applyEvent
        { jobId := "job-1", repositoryReference := "octo/app",
          status := .refactoring, files := [] }
        { jobId := "job-1", eventType := "UPDATE",
          target := .analyzing, payload := [] } =
      { jobId := "job-1", repositoryReference := "octo/app",
        status := .refactoring, files := [] } :=
  jobStatus_monotone.2 _ _ (by decide)

/-- C2: once a Job's status is failed, folding any further sequence of
ProgressEvents, of any event type and target status, leaves the status equal
to failed. -/
theorem failed_is_sticky (j : Job) (h : j.status = .failed)
    (l : List ProgressEvent) :
    (l.foldl applyEvent j).status = .failed := by
  induction l generalizing j with
  | nil => exact h
  | cons e t ih =>
      have hj : applyEvent j e = j := by
        simp [applyEvent, h, JobStatus.isTerminal]
      rw [List.foldl_cons, hj]
      exact ih j h

/-- Witness for C2: a failed job stays failed after an opened event and a
queued event are delivered. -/
theorem failed_is_sticky_w :
    (List.foldl applyEvent
        { jobId := "job-2", repositoryReference := "octo/app",
          status := .failed, files := [] }
        [{ jobId := "job-2", eventType := "UPDATE", target := .opened, payload := [] },
         { jobId := "job-2", eventType := "UPDATE", target := .queued, payload := [] }]).status
      = .failed :=
  failed_is_sticky _ rfl _

/-- C3: the reducer is idempotent: applying the same ProgressEvent twice
produces a Job identical to applying it once. -/
theorem applyEvent_idempotent (j : Job) (e : ProgressEvent) :
    applyEvent (applyEvent j e) e = applyEvent j e := by
  by_cases h1 : j.status.isTerminal = true
  · have hin : applyEvent j e = j := by simp [applyEvent, h1]
    rw [hin]
    exact hin
  · by_cases h2 : e.target = JobStatus.failed
    · have hin : applyEvent j e = { j with status := .failed } := by
        simp [applyEvent, h1, h2]
      rw [hin]
      simp [applyEvent, JobStatus.isTerminal]
    · by_cases h3 : j.status.rank ≤ e.target.rank
      · have hin : applyEvent j e = { j with status := e.target, files := e.payload } := by
          simp [applyEvent, h1, h2, h3]
        rw [hin]
        by_cases h4 : e.target.isTerminal = true
        · simp [applyEvent, h4]
        · simp [applyEvent, h4, h2]
      · have hin : applyEvent j e = j := by
          simp [applyEvent, h1, h2, h3]
        rw [hin]
        exact hin

/-! ## Claims about the OAuth callback -/

/-- A token-exchange oracle that succeeds on every code, used for concrete
instances. -/
def exchangeStub : String → Option TokenResponse :=
  fun _ => some { access_token := "gho_token", user := "\x7b\"login\":\"octocat\"\x7d" }

/-- Counterexample to C4 as stated: with the error query parameter present but
equal to the empty string (URL ?error=&code=abc), the page's `if (error)` test
is false because the empty string is falsy in JavaScript, so the callback does
not enter the failure state and the token exchange is attempted. -/
theorem oauthError_empty_not_failure :
    ¬ ((handleCallback (some "abc") (some "") exchangeStub).status = .error ∧
       (handleCallback (some "abc") (some "") exchangeStub).exchangeAttempted = false) := by
  decide

/-- C4 (amended): when the OAuth callback is invoked with a nonempty error
query parameter, or with the code query parameter absent or empty, the UI
enters the error state and schedules a redirect to the login view after
exactly 3000 milliseconds, and no token exchange is attempted. -/
theorem oauthCallback_failure_path (code error : Option String)
    (exchange : String → Option TokenResponse)
    (h : jsTruthy error = true ∨ jsTruthy code = false) :
    (handleCallback code error exchange).status = .error ∧
    (handleCallback code error exchange).redirectPath = "/login" ∧
    (handleCallback code error exchange).redirectDelayMs = 3000 ∧
    (handleCallback code error exchange).exchangeAttempted = false := by
  rcases h with h | h
  · simp [handleCallback, h]
  · cases he : jsTruthy error
    · simp [handleCallback, he, h]
    · simp [handleCallback, he]

/-- Witness for C4 (amended): the callback invoked with error=access_denied
and no code shows the failure state, schedules the 3-second login redirect and
attempts no exchange. -/
theorem oauthCallback_failure_path_w :
    (handleCallback none (some "access_denied") exchangeStub).status = .error ∧
    (handleCallback none (some "access_denied") exchangeStub).redirectPath = "/login" ∧
    (handleCallback none (some "access_denied") exchangeStub).redirectDelayMs = 3000 ∧
    (handleCallback none (some "access_denied") exchangeStub).exchangeAttempted = false :=
  oauthCallback_failure_path none (some "access_denied") exchangeStub (Or.inl (by decide))

/-- C5: when the OAuth callback is invoked with a valid (nonempty) code, no
truthy error parameter, and the backend exchange of that code succeeds, the
client stores the returned access_token and serialised user in localStorage,
enters the success state, and schedules a redirect to the dashboard after
exactly 1500 milliseconds. -/
theorem oauthCallback_success_path (code error : Option String)
    (resp : TokenResponse) (exchange : String → Option TokenResponse)
    (hcode : jsTruthy code = true) (herr : jsTruthy error = false)
    (hx : exchange (code.getD "") = some resp) :
    (handleCallback code error exchange).status = .success ∧
    (handleCallback code error exchange).writes =
      [("auth_token", resp.access_token), ("user", resp.user)] ∧
    (handleCallback code error exchange).redirectPath = "/" ∧
    (handleCallback code error exchange).redirectDelayMs = 1500 := by
  simp [handleCallback, herr, hcode, hx]

/-- Witness for C5: a callback with a valid code and a successful exchange
stores the token and user and schedules the 1.5-second dashboard redirect. -/
theorem oauthCallback_success_path_w :
    (handleCallback (some "abc123") none exchangeStub).status = .success ∧
    (handleCallback (some "abc123") none exchangeStub).writes =
      [("auth_token", "gho_token"), ("user", "\x7b\"login\":\"octocat\"\x7d")] ∧
    (handleCallback (some "abc123") none exchangeStub).redirectPath = "/" ∧
    (handleCallback (some "abc123") none exchangeStub).redirectDelayMs = 1500 :=
  oauthCallback_success_path (some "abc123") none
    { access_token := "gho_token", user := "\x7b\"login\":\"octocat\"\x7d" }
    exchangeStub (by decide) (by decide) (by decide)

/-- C10: the callback writes localStorage only on the success path.  On every
failure path (truthy error parameter, absent or empty code, or a failed
exchange) the writes list is empty; and conversely a nonempty writes list
implies the success state was entered and is exactly the auth_token and user
entries of a successful exchange response. -/
theorem oauthCallback_writes_only_on_success (code error : Option String)
    (exchange : String → Option TokenResponse) :
    ((jsTruthy error = true ∨ jsTruthy code = false ∨
        exchange (code.getD "") = none) →
      (handleCallback code error exchange).writes = []) ∧
    ((handleCallback code error exchange).writes ≠ [] →
      (handleCallback code error exchange).status = .success ∧
      ∃ resp, exchange (code.getD "") = some resp ∧
        (handleCallback code error exchange).writes =
          [("auth_token", resp.access_token), ("user", resp.user)]) := by
  constructor
  · intro h
    rcases h with h | h | h
    · simp [handleCallback, h]
    · cases he : jsTruthy error
      · simp [handleCallback, he, h]
      · simp [handleCallback, he]
    · cases he : jsTruthy error
      · cases hc : jsTruthy code
        · simp [handleCallback, he, hc]
        · simp [handleCallback, he, hc, h]
      · simp [handleCallback, he]
  · intro h
    cases he : jsTruthy error
    · cases hc : jsTruthy code
      · exact absurd (by simp [handleCallback, he, hc]) h
      · cases hx : exchange (code.getD "")
        · exact absurd (by simp [handleCallback, he, hc, hx]) h
        · next resp =>
            refine ⟨by simp [handleCallback, he, hc, hx], resp, rfl, ?_⟩
            simp [handleCallback, he, hc, hx]
    · exact absurd (by simp [handleCallback, he]) h

/-- Witness for C10: with error=access_denied the callback writes nothing to
localStorage. -/
theorem oauthCallback_writes_only_on_success_w :
    (handleCallback (some "abc123") (some "access_denied") exchangeStub).writes = [] :=
  (oauthCallback_writes_only_on_success (some "abc123") (some "access_denied")
    exchangeStub).1 (Or.inl (by decide))

/-! ## Claims about the Session Store -/

/-- Counterexample to C8 as stated: on a successful OAuth callback, the only
storing code in the provided source writes exactly the auth_token and user
keys to localStorage.  No issue timestamp is recorded with the credential, so
no (now minus issuedAt) age can be computed from what the client stores. -/
theorem sessionStore_no_timestamp_recorded :
    ((handleCallback (some "abc123") none exchangeStub).writes).map Prod.fst =
      ["auth_token", "user"] := by
  decide

/-- C8 (amended): the OAuth callback records only the credential and the
serialised user, with no issue timestamp; the Session Store validity check,
modelled from the spec because it is not among the provided source files,
returns false for every session whose age (now minus issuedAt) exceeds the
fixed 7-day validity window. -/
theorem sessionStore_validity (c : String) (resp : TokenResponse)
    (exchange : String → Option TokenResponse)
    (hc : c ≠ "") (hx : exchange c = some resp) :
    ((handleCallback (some c) none exchange).writes).map Prod.fst =
      ["auth_token", "user"] ∧
    (∀ (s : Session) (now : Nat),
        sessionValidityWindowMs < now - s.issuedAt → s.isValid now = false) := by
  constructor
  · simp [handleCallback, jsTruthy, hc, hx]
  · intro s now h
    simp only [Session.isValid, decide_eq_false_iff_not]
    omega

/-- Witness for C8 (amended): with a concrete code and exchange, only the two
keys are written, and a session issued at time 0 is invalid one millisecond
after the 7-day window. -/
theorem sessionStore_validity_w :
    ((handleCallback (some "abc123") none exchangeStub).writes).map Prod.fst =
      ["auth_token", "user"] ∧
    Session.isValid
        { userIdentifier := "octocat", accessToken := "gho_token", issuedAt := 0 }
        604800001 = false :=
  ⟨(sessionStore_validity "abc123"
      { access_token := "gho_token", user := "\x7b\"login\":\"octocat\"\x7d" }
      exchangeStub (by decide) (by decide)).1,
   (sessionStore_validity "abc123"
      { access_token := "gho_token", user := "\x7b\"login\":\"octocat\"\x7d" }
      exchangeStub (by decide) (by decide)).2
     { userIdentifier := "octocat", accessToken := "gho_token", issuedAt := 0 }
     604800001 (by decide)⟩

/-! ## Claims about the diff presentation -/

/-- A concrete file pair for instances: one modernised file named app.js. -/
def sampleComparison : Comparison :=
  { old := { name := "app.js", content := "var x = 1", description := "modernised",
             confidence_score := none, key_changes := none }
    new := { name := "app.js", content := "const x = 1", description := "modernised",
             confidence_score := some 95, key_changes := some ["var to const"] } }

/-- Counterexample to C6 as stated: selecting a file name absent from the file
set neither leaves the active selection unchanged nor falls back to the first
file.  Starting from the initial state over one file named app.js (active
selection app.js), selecting ghost.js stores ghost.js as the active file, and
no file panel is displayed because no pair has that old name. -/
theorem selectFile_absent_changes_selection :
    (selectFile (initCardState [sampleComparison]) "ghost.js").activeFile ≠ "app.js" ∧
    displayedFile (selectFile (initCardState [sampleComparison]) "ghost.js") = none := by
  decide

/-- C6 (amended): selecting a file name absent from the current file set sets
the stored active selection to that name and leaves no file panel displayed
(no pair's old name matches); the selection neither stays unchanged nor falls
back to the first file.  Absent names cannot originate from the rendered tab
list, whose values come from the file set itself. -/
theorem selectFile_absent (s : CardState) (name : String)
    (h : ¬ name ∈ s.files.map (fun f => f.old.name)) :
    (selectFile s name).activeFile = name ∧
    displayedFile (selectFile s name) = none := by
  refine ⟨rfl, ?_⟩
  simp only [displayedFile, selectFile]
  rw [List.find?_eq_none]
  intro f hf hbeq
  exact h (List.mem_map.mpr ⟨f, hf, by simpa using hbeq⟩)

/-- Witness for C6 (amended): selecting ghost.js over the one-file set stores
ghost.js and displays no panel. -/
theorem selectFile_absent_w :
    (selectFile { files := [sampleComparison], activeFile := "app.js" } "ghost.js").activeFile
        = "ghost.js" ∧
    displayedFile
        (selectFile { files := [sampleComparison], activeFile := "app.js" } "ghost.js")
      = none :=
  selectFile_absent { files := [sampleComparison], activeFile := "app.js" } "ghost.js"
    (by decide)

theorem totalLines_eq_sum (files : List Comparison) :
    totalLines files =
      (files.map (fun f => (f.new.content.data.splitOn '\n').length)).sum := by
  suffices h : ∀ (l : List Comparison) (acc : Nat),
      l.foldl (fun a f => a + (f.new.content.data.splitOn '\n').length) acc =
        acc + (l.map (fun f => (f.new.content.data.splitOn '\n').length)).sum by
    simpa [totalLines] using h files 0
  intro l
  induction l with
  | nil => intro acc; simp
  | cons x t ih => intro acc; simp [ih, Nat.add_assoc]

/-- C7: for every non-empty file sequence the rendered aggregate statistics
are pure functions of the sequence: the files-changed count is the number of
file pairs and the lines-written total is the sum over all pairs of the number
of newline-separated lines of the new content. -/
theorem renderCard_stats (files : List Comparison) (link : String)
    (h : files ≠ []) :
    renderCard files link =
      RenderedView.card (tabLabels files) files.length
        ((files.map (fun f => (f.new.content.data.splitOn '\n').length)).sum) link := by
  cases files with
  | nil => exact absurd rfl h
  | cons x t =>
      simp only [renderCard, List.isEmpty_cons, if_false, Bool.false_eq_true]
      rw [totalLines_eq_sum]

/-- Witness for C7: one pair whose new content has three newline-separated
lines renders a card with one file changed and three lines written. -/
theorem renderCard_stats_w :
    renderCard
        [{ old := { name := "m.js", content := "var a", description := "d",
                    confidence_score := none, key_changes := none }
           new := { name := "m.js", content := "const a\nconst b\nconst c",
                    description := "d", confidence_score := none, key_changes := none } }]
        "https://github.com/octo/app/pull/1" =
      RenderedView.card ["m.js"] 1 3 "https://github.com/octo/app/pull/1" := by
  rw [renderCard_stats _ "https://github.com/octo/app/pull/1" (by decide)]
  decide

/-- C9: the component renders the "No files to display" placeholder, with no
tabs, no aggregate statistics and no pull-request call-to-action, exactly when
the file sequence is empty. -/
theorem renderCard_empty_iff (files : List Comparison) (link : String) :
    renderCard files link = RenderedView.noFilesPlaceholder ↔ files = [] := by
  cases files with
  | nil => simp [renderCard]
  | cons x t => simp [renderCard]
